import Mathlib

/-!
Shallow embedding of the payment-reconciliation engine
(GeroJun/payment-reconciliation-engine).

Monetary amounts are modelled as exact rationals (`Rat`), matching the
DECIMAL columns of the schema.  Timestamps are a logical clock (`Nat`):
each top-level operation receives the current time `now` and stamps the
rows it inserts with it (the code uses `NOW()`, which is constant inside
one database transaction).  Row identifiers (UUIDs in the code) are
modelled by a fresh-id counter `nextId` on the store.  A store error
(`Except.error`) corresponds to the code's catch/ROLLBACK/rethrow: the
caller observes the unchanged store together with the thrown error.

Account ids are strings; the empty string models a missing / falsy id
(JS `!x` on a string is true exactly for the empty string among strings).
-/

namespace PayRecon

/-- Entry kind of a ledger row; the schema constrains `entry_type` to
exactly these two values (CHECK constraint in init.sql and migrate.js). -/
inductive EntryType where
  | DEBIT
  | CREDIT
deriving DecidableEq, Repr

/-- Value of the `account_side` column written by `createLedgerEntries`. -/
inductive AccountSide where
  | SOURCE
  | DESTINATION
deriving DecidableEq, Repr

/-- Row of the `transactions` table, with the columns the code reads or
writes: `type` and `parent_transaction_id` are written by `processRefund`,
and `account_id` is the column referenced by the reconciliation query
`WHERE account_id = $1` on `transactions`; no schema file declares that
column and no code path ever populates it, so it is modelled as an
always-`none` optional field (SQL `NULL = x` never holds, so the filter
matches nothing — the closest total semantics to the code's query). -/
structure TxnRow where
  id : Nat
  source_account_id : String
  destination_account_id : String
  amount : Rat
  status : String
  type : Option String
  parent_transaction_id : Option Nat
  account_id : Option String
  created_at : Nat
deriving DecidableEq, Repr

/-- Row of the `ledger_entries` table as written by `createLedgerEntries`. -/
structure LedgerRow where
  transaction_id : Nat
  account_id : String
  amount : Rat
  entry_type : EntryType
  account_side : AccountSide
  created_at : Nat
deriving DecidableEq, Repr

/-- Row of the `idempotency_keys` table; the schema puts a UNIQUE
constraint on `idempotency_key`. -/
structure KeyRow where
  idempotency_key : String
  transaction_id : Nat
  created_at : Nat
deriving DecidableEq, Repr

/-- One reconciliation discrepancy as pushed by `reconcileAccount`;
the optional fields mirror the two object shapes the code pushes. -/
structure Discrepancy where
  type : String
  transaction_id : Nat
  severity : String
  amount : Option Rat
  expected : Option Rat
  actual : Option Rat
deriving DecidableEq, Repr

/-- The report object returned (and stored as JSON) by `reconcileAccount`. -/
structure ReconReport where
  account_id : String
  period_start : Nat
  period_end : Nat
  transaction_count : Nat
  discrepancy_count : Nat
  balanced : Bool
  expected_balance : Rat
  actual_balance : Rat
  discrepancies : List Discrepancy
deriving DecidableEq, Repr

/-- Row of the `reconciliation_reports` table as written by
`storeReconciliationReport` (the full report is stored as `report_data`). -/
structure ReportRow where
  id : Nat
  account_id : String
  period_start : Nat
  period_end : Nat
  transaction_count : Nat
  discrepancy_count : Nat
  balanced : Bool
  report_data : ReconReport
  created_at : Nat
deriving DecidableEq, Repr

/-- The durable store: the four tables plus the fresh-id counter. -/
structure DB where
  transactions : List TxnRow
  ledger_entries : List LedgerRow
  idempotency_keys : List KeyRow
  reports : List ReportRow
  nextId : Nat
deriving DecidableEq, Repr

/-- The empty store. -/
def DB.empty : DB := ⟨[], [], [], [], 0⟩

/-- Transaction payload as submitted by a caller
(`{source_account_id, destination_account_id, amount}`). -/
structure TxnPayload where
  source_account_id : String
  destination_account_id : String
  amount : Rat
deriving DecidableEq, Repr

/-- An error thrown by the service layer: a Postgres error carries a
`code` (e.g. 23505 for a unique-constraint violation), a plain
`throw new Error(msg)` has no code. -/
structure AppError where
  code : Option String
  message : String
deriving DecidableEq, Repr

/-- Result of `processTransaction`: the duplicate branch returns the row
bound to the key (`rows[0]`, which is `undefined`, i.e. `none`, if the
referenced transaction row is absent); the success branch returns the
freshly inserted row (still carrying status PENDING, since the RETURNING
clause ran before the status update). -/
inductive TPResult where
  | DUPLICATE (transaction : Option TxnRow)
  | SUCCESS (transaction_id : Nat) (transaction : TxnRow)
deriving DecidableEq, Repr

/-- Lookup in `idempotency_keys` by key
(`SELECT ... WHERE idempotency_key = $1`). -/
def findKey (db : DB) (key : String) : Option KeyRow :=
  db.idempotency_keys.find? (fun r => r.idempotency_key == key)

/-- Lookup in `transactions` by id (`SELECT * FROM transactions WHERE id = $1`). -/
def findTxn (db : DB) (id : Nat) : Option TxnRow :=
  db.transactions.find? (fun r => r.id == id)

/-- Insert into `idempotency_keys`: the UNIQUE constraint on
`idempotency_key` makes the insert fail with Postgres error 23505
when the key is already bound. -/
def insertIdempotencyKey (db : DB) (now : Nat) (key : String) (tid : Nat) :
    Except AppError DB :=
  match findKey db key with
  | some _ => .error ⟨some ("23505"), "duplicate key value violates unique constraint"⟩
  | none => .ok { db with idempotency_keys :=
      db.idempotency_keys ++ [⟨key, tid, now⟩] }

/-- `UPDATE transactions SET status = $1 WHERE id = $2`. -/
def updateTxnStatus (db : DB) (tid : Nat) (s : String) : DB :=
  { db with transactions :=
      db.transactions.map (fun r => if r.id == tid then { r with status := s } else r) }

/-- TransactionProcessor.validateTransaction: missing ids, then same
account, then non-positive amount, each thrown as a plain Error. -/
def validateTransaction (t : TxnPayload) : Except AppError Unit :=
  if t.source_account_id = "" ∨ t.destination_account_id = "" then
    .error ⟨none, "Missing account IDs"⟩
  else if t.source_account_id = t.destination_account_id then
    .error ⟨none, "Cannot transfer to same account"⟩
  else if t.amount ≤ 0 then
    .error ⟨none, "Invalid amount"⟩
  else
    .ok ()

/-- TransactionProcessor.createLedgerEntries: inserts the DEBIT row
against the source account with the negated amount, then the CREDIT row
against the destination account with the positive amount. -/
def createLedgerEntries (db : DB) (now : Nat) (transactionId : Nat) (t : TxnPayload) : DB :=
  { db with ledger_entries := db.ledger_entries ++
      [ ⟨transactionId, t.source_account_id, -t.amount, .DEBIT, .SOURCE, now⟩,
        ⟨transactionId, t.destination_account_id, t.amount, .CREDIT, .DESTINATION, now⟩ ] }

/-- TransactionProcessor.processTransaction, split over a check-state and
a write-state to model the §5 race window: the duplicate check (first
SELECT) runs against `dbCheck`, the writes run against `dbWrite`.  The
sequential, race-free call is `processTransaction`, where the two states
coincide.  An `Except.error` result models catch/ROLLBACK/rethrow: the
store the caller observes afterwards is `dbWrite` unchanged. -/
def processTransactionAux (dbCheck dbWrite : DB) (now : Nat) (t : TxnPayload)
    (key : String) : Except AppError (TPResult × DB) :=
  match findKey dbCheck key with
  | some kr => .ok (.DUPLICATE (findTxn dbCheck kr.transaction_id), dbWrite)
  | none =>
    match validateTransaction t with
    | .error e => .error e
    | .ok _ =>
      let txnId := dbWrite.nextId
      let txn : TxnRow :=
        ⟨txnId, t.source_account_id, t.destination_account_id, t.amount,
         "PENDING", none, none, none, now⟩
      let db1 : DB := { dbWrite with
        transactions := dbWrite.transactions ++ [txn], nextId := dbWrite.nextId + 1 }
      match insertIdempotencyKey db1 now key txnId with
      | .error e => .error e
      | .ok db2 =>
        let db3 := createLedgerEntries db2 now txnId t
        let db4 := updateTxnStatus db3 txnId ("COMPLETED")
        .ok (.SUCCESS txnId txn, db4)

/-- TransactionProcessor.processTransaction (sequential execution: the
duplicate check and the writes see the same store). -/
def processTransaction (db : DB) (now : Nat) (t : TxnPayload) (key : String) :
    Except AppError (TPResult × DB) :=
  processTransactionAux db db now t key

/-- Submitting the same `(transaction, idempotencyKey)` pair `n` times in
sequence through `processTransaction`, collecting each call's outcome; an
error leaves the store unchanged (ROLLBACK). -/
def submitN (db : DB) (now : Nat) (t : TxnPayload) (key : String) :
    Nat → List (Except AppError TPResult) × DB
  | 0 => ([], db)
  | n + 1 =>
    match processTransaction db now t key with
    | .ok (r, db1) =>
      let rest := submitN db1 now t key n
      (.ok r :: rest.1, rest.2)
    | .error e =>
      let rest := submitN db now t key n
      (.error e :: rest.1, rest.2)

/-- TransactionProcessor.processRefund: looks the original transaction up
by id (404 path: throws 'Transaction not found'), inserts a COMPLETED
refund transaction with source and destination swapped, type REFUND and
`parent_transaction_id` pointing at the original, posts its ledger entry
pair, and sets the original's status to REFUNDED.  The code never checks
the original transaction's status. -/
def processRefund (db : DB) (now : Nat) (transactionId : Nat) (refundAmount : Rat)
    (_reason : String) : Except AppError (TxnRow × DB) :=
  match findTxn db transactionId with
  | none => .error ⟨none, "Transaction not found"⟩
  | some originalTxn =>
    let rid := db.nextId
    let refundTxn : TxnRow :=
      ⟨rid, originalTxn.destination_account_id, originalTxn.source_account_id,
       refundAmount, "COMPLETED", some ("REFUND"), some transactionId, none, now⟩
    let db1 : DB := { db with
      transactions := db.transactions ++ [refundTxn], nextId := db.nextId + 1 }
    let db2 := createLedgerEntries db1 now rid
      ⟨originalTxn.destination_account_id, originalTxn.source_account_id, refundAmount⟩
    let db3 := updateTxnStatus db2 transactionId ("REFUNDED")
    .ok (refundTxn, db3)

/-! ### LedgerManager (src/unnamed/part_001) -/

/-- Sum of the amounts of a list of ledger rows (SQL `SUM(amount)`;
`NULL`, i.e. the empty sum, is coerced to 0 by the code's `|| 0`). -/
def sumAmounts (l : List LedgerRow) : Rat :=
  (l.map (fun e => e.amount)).sum

/-- All ledger entries of one transaction
(`SELECT * FROM ledger_entries WHERE transaction_id = $1`), in insertion
order (the query has no ORDER BY; the model returns table order). -/
def txnEntries (db : DB) (tid : Nat) : List LedgerRow :=
  db.ledger_entries.filter (fun e => e.transaction_id == tid)

/-- The DEBIT rows of one transaction (the GROUP BY `entry_type` group). -/
def txnDebitRows (db : DB) (tid : Nat) : List LedgerRow :=
  (txnEntries db tid).filter (fun e => e.entry_type == EntryType.DEBIT)

/-- The CREDIT rows of one transaction (the GROUP BY `entry_type` group). -/
def txnCreditRows (db : DB) (tid : Nat) : List LedgerRow :=
  (txnEntries db tid).filter (fun e => e.entry_type == EntryType.CREDIT)

/-- Result object of `verifyDoubleEntry`; the early-return branch carries
only `valid` and `reason`, the main branch carries the totals and the
`balanced` flag. -/
structure VerifyResult where
  valid : Bool
  reason : Option String
  debits : Option Rat
  credits : Option Rat
  balanced : Option Bool
deriving DecidableEq, Repr

/-- JS `Math.abs` on an exact rational. -/
def ratAbs (x : Rat) : Rat := if x < 0 then -x else x

/-- LedgerManager.verifyDoubleEntry: groups the transaction's entries by
`entry_type` with their sums; `entries.length !== 2` counts the distinct
entry types present (not the entries), and the balance test is
`Math.abs(debits + credits) < 0.01`. -/
def verifyDoubleEntry (db : DB) (tid : Nat) : VerifyResult :=
  let groupCount :=
    (if (txnDebitRows db tid).isEmpty then 0 else 1) +
    (if (txnCreditRows db tid).isEmpty then 0 else 1)
  if groupCount ≠ 2 then
    ⟨false, some ("Not exactly 2 entry types"), none, none, none⟩
  else
    let debits := sumAmounts (txnDebitRows db tid)
    let credits := sumAmounts (txnCreditRows db tid)
    let balanced := decide (ratAbs (debits + credits) < (1 : Rat) / 100)
    ⟨balanced, none, some (ratAbs debits), some credits, some balanced⟩

/-- LedgerManager.getBalance: `SUM(amount)` over the account's ledger
entries, `NULL` coerced to 0. -/
def getBalance (db : DB) (accountId : String) : Rat :=
  sumAmounts (db.ledger_entries.filter (fun e => e.account_id == accountId))

/-! ### ReconciliationService (src/src/services/reconciliationService.js) -/

/-- Sum of the account's ledger entries created strictly before `d`
(the baseline query of `reconcileAccount`). -/
def ledgerBalanceBefore (db : DB) (accountId : String) (d : Nat) : Rat :=
  sumAmounts (db.ledger_entries.filter
    (fun e => e.account_id == accountId && decide (e.created_at < d)))

/-- Sum of the account's ledger entries created up to and including `d`
(the final-balance query of `reconcileAccount`). -/
def ledgerBalanceUpTo (db : DB) (accountId : String) (d : Nat) : Rat :=
  sumAmounts (db.ledger_entries.filter
    (fun e => e.account_id == accountId && decide (e.created_at ≤ d)))

/-- Insert a transaction row in `created_at` order (stable insertion used
by `sortByCreatedAt`). -/
def insertByCreatedAt (t : TxnRow) : List TxnRow → List TxnRow
  | [] => [t]
  | u :: us =>
    if u.created_at ≤ t.created_at then u :: insertByCreatedAt t us
    else t :: u :: us

/-- Stable sort by `created_at` ascending (`ORDER BY created_at ASC`). -/
def sortByCreatedAt (l : List TxnRow) : List TxnRow :=
  l.foldr insertByCreatedAt []

/-- The transaction query of `reconcileAccount`:
`SELECT * FROM transactions WHERE account_id = $1 AND created_at BETWEEN
$2 AND $3 ORDER BY created_at ASC`.  See `TxnRow.account_id`: the filter
compares the never-populated `account_id` column, so on every store the
code can produce it selects nothing. -/
def reconTxns (db : DB) (accountId : String) (startDate endDate : Nat) : List TxnRow :=
  sortByCreatedAt (db.transactions.filter
    (fun t => t.account_id == some accountId &&
      decide (startDate ≤ t.created_at) && decide (t.created_at ≤ endDate)))

/-- The body of `reconcileAccount`'s per-transaction loop: the state is
the discrepancy list together with the `processedBalance` accumulator
(which the surrounding code never reads).  Zero fetched entries push a
MISSING_LEDGER_ENTRY/HIGH discrepancy; otherwise only the first fetched
entry (`rows[0]`) is compared, against the transaction's own (positive)
amount. -/
def reconLoopStep (db : DB) (acc : List Discrepancy × Rat) (txn : TxnRow) :
    List Discrepancy × Rat :=
  match txnEntries db txn.id with
  | [] =>
    (acc.1 ++ [⟨"MISSING_LEDGER_ENTRY", txn.id, "HIGH", some txn.amount, none, none⟩],
     acc.2 + txn.amount)
  | ledgerEntry :: _ =>
    if ledgerEntry.amount ≠ txn.amount then
      (acc.1 ++ [⟨"AMOUNT_MISMATCH", txn.id, "CRITICAL", none, some txn.amount,
        some ledgerEntry.amount⟩],
       acc.2 + txn.amount)
    else
      (acc.1, acc.2 + txn.amount)

/-- ReconciliationService.storeReconciliationReport. -/
def storeReconciliationReport (db : DB) (now : Nat) (report : ReconReport) : Nat × DB :=
  let id := db.nextId
  (id, { db with
    reports := db.reports ++
      [⟨id, report.account_id, report.period_start, report.period_end,
        report.transaction_count, report.discrepancy_count, report.balanced,
        report, now⟩],
    nextId := db.nextId + 1 })

/-- ReconciliationService.reconcileAccount: `expectedBalance` is the
pre-window ledger baseline; the loop threads `processedBalance` starting
from it (`processedBalance += txn.amount`, sign-blind) but the result is
unused; `balanced` compares the baseline `expectedBalance` with the
ledger balance up to `endDate`. -/
def reconcileAccount (db : DB) (now : Nat) (accountId : String)
    (startDate endDate : Nat) : ReconReport × DB :=
  let transactions := reconTxns db accountId startDate endDate
  let expectedBalance := ledgerBalanceBefore db accountId startDate
  let looped := transactions.foldl (reconLoopStep db) ([], expectedBalance)
  let discrepancies := looped.1
  let actualBalance := ledgerBalanceUpTo db accountId endDate
  let report : ReconReport :=
    ⟨accountId, startDate, endDate, transactions.length, discrepancies.length,
     decide (expectedBalance = actualBalance), expectedBalance, actualBalance,
     discrepancies⟩
  let stored := storeReconciliationReport db now report
  (report, stored.2)

/-- Modelled from the spec (§4.3 steps 2 and 4), for comparison with the
code: the transaction-derived expected ending balance is the pre-window
ledger baseline plus the signed sum of the amounts of the in-window
transactions touching the account — negative when the account is the
transaction's source, positive when it is the destination. -/
def specExpectedEndingBalance (db : DB) (accountId : String)
    (startDate endDate : Nat) : Rat :=
  ledgerBalanceBefore db accountId startDate +
    ((db.transactions.filter (fun t =>
        (t.source_account_id == accountId || t.destination_account_id == accountId) &&
        decide (startDate ≤ t.created_at) && decide (t.created_at ≤ endDate))).map
      (fun t => if t.source_account_id == accountId then -t.amount else t.amount)).sum

/-! ### Validation middleware and error mapping (src/src/utils/validation.js) -/

/-- JS `String.prototype.includes`, expressed through `splitOn`: the
pattern occurs in `s` iff splitting on it yields more than one piece. -/
def strIncludes (s pat : String) : Bool :=
  (s.splitOn pat).length ≠ 1

/-- The `validateTransaction` middleware: collects the error messages for
a missing source id, missing destination id, falsy or non-positive
amount, and falsy idempotency key, in the code's order. -/
def validateTransactionMw (t : TxnPayload) (key : String) : List String :=
  (if t.source_account_id = "" then ["source_account_id is required"] else []) ++
  (if t.destination_account_id = "" then ["destination_account_id is required"] else []) ++
  (if t.amount ≤ 0 then ["Valid amount is required"] else []) ++
  (if key = "" then ["idempotencyKey is required and must be a string"] else [])

/-- An HTTP error response produced by `handleErrors`. -/
structure HttpResponse where
  status : Nat
  body : String
deriving DecidableEq, Repr

/-- The `handleErrors` helper: Postgres unique-violation code 23505 maps
to 409 'Duplicate entry'; then messages containing 'not found' map to
404, messages containing 'Invalid' or 'Missing' map to 400, and anything
else maps to 500. -/
def handleErrors (e : AppError) : HttpResponse :=
  if e.code = some ("23505") then ⟨409, "Duplicate entry"⟩
  else if strIncludes e.message ("not found") then ⟨404, e.message⟩
  else if strIncludes e.message ("Invalid") || strIncludes e.message ("Missing") then
    ⟨400, e.message⟩
  else ⟨500, "Internal server error"⟩

/-! ### The served API routes (src/src/api/routes.js) -/

/-- Outcome of an API route call. -/
inductive ApiOutcome where
  | validationFailed (errors : List String)
  | ok (status : Nat) (result : TPResult)
  | okReport (status : Nat) (report : ReconReport)
  | failed (response : HttpResponse)
deriving DecidableEq, Repr

/-- HTTP status of an API outcome (validation failures respond 400). -/
def ApiOutcome.status : ApiOutcome → Nat
  | .validationFailed _ => 400
  | .ok s _ => s
  | .okReport s _ => s
  | .failed r => r.status

/-- POST /api/v1/transactions as served (src/src/api/routes.js): the
`validateTransaction` middleware first (400 on any error), then
`processTransaction`, responding 200 for DUPLICATE and 201 otherwise,
with thrown errors mapped by `handleErrors`. -/
def routePostTransactions (db : DB) (now : Nat) (t : TxnPayload) (key : String) :
    ApiOutcome × DB :=
  match validateTransactionMw t key with
  | [] =>
    match processTransaction db now t key with
    | .ok (r, db1) =>
      (.ok (match r with | .DUPLICATE _ => 200 | .SUCCESS _ _ => 201) r, db1)
    | .error e => (.failed (handleErrors e), db)
  | errs => (.validationFailed errs, db)

/-- POST /api/v1/accounts/:accountId/reconcile as served
(src/src/api/routes.js): no validation of the window bounds at all —
the dates are passed straight to `reconcileAccount` and the report is
returned with status 201.  (Only the unwired AWS route variant in
src/README.md checks `start >= end`.) -/
def routeReconcile (db : DB) (now : Nat) (accountId : String)
    (startDate endDate : Nat) : ApiOutcome × DB :=
  let r := reconcileAccount db now accountId startDate endDate
  (.okReport 201 r.1, r.2)

/-! ### Concrete stores used by the witnesses and counterexamples -/

/-- A valid payload: 100 from account A to account B. -/
def payAB : TxnPayload := ⟨"A", "B", 100⟩

/-- The transaction row as inserted (and returned) by `processTransaction`
for `payAB` at time 5 on the empty store. -/
def exTxnPending : TxnRow := ⟨0, "A", "B", 100, "PENDING", none, none, none, 5⟩

/-- The same row after the COMPLETED status update. -/
def exTxnCompleted : TxnRow := ⟨0, "A", "B", 100, "COMPLETED", none, none, none, 5⟩

/-- The store after `processTransaction DB.empty 5 payAB "k1"`: one
COMPLETED transaction, its DEBIT/CREDIT pair, and the bound key. -/
def exDB1 : DB :=
  ⟨[exTxnCompleted],
   [⟨0, "A", -100, .DEBIT, .SOURCE, 5⟩, ⟨0, "B", 100, .CREDIT, .DESTINATION, 5⟩],
   [⟨"k1", 0, 5⟩], [], 1⟩

/-- `exDB1` after the transaction's ledger entries were deleted
out-of-band (the injected corruption of the reconciliation claims). -/
def exDB2 : DB := { exDB1 with ledger_entries := [] }

/-- `exDB1` after the source-side DEBIT entry was corrupted out-of-band
from -100 to -50. -/
def exDB3 : DB :=
  { exDB1 with ledger_entries :=
      [⟨0, "A", -50, .DEBIT, .SOURCE, 5⟩, ⟨0, "B", 100, .CREDIT, .DESTINATION, 5⟩] }

/-- A store whose transaction 0 owns two DEBIT entries and one CREDIT
entry whose amounts net to zero. -/
def exDB6 : DB :=
  ⟨[], [⟨0, "A", -50, .DEBIT, .SOURCE, 1⟩, ⟨0, "A", -50, .DEBIT, .SOURCE, 2⟩,
        ⟨0, "B", 100, .CREDIT, .DESTINATION, 3⟩], [], [], 1⟩

/-- A store holding one transaction that is still PENDING. -/
def exDBPending : DB := ⟨[⟨0, "A", "B", 100, "PENDING", none, none, none, 5⟩], [], [], [], 1⟩

/-! ### Helper lemmas -/

/-- Searching an appended list when the first part has no hit. -/
theorem find?_append_of_none {α : Type} {p : α → Bool} {l1 : List α} (l2 : List α)
    (h : l1.find? p = none) : (l1 ++ l2).find? p = l2.find? p := by
  rw [List.find?_append, h, Option.none_or]

/-- Searching an appended list when the first part already has a hit. -/
theorem find?_append_of_some {α : Type} {p : α → Bool} {l1 : List α} {x : α}
    (l2 : List α) (h : l1.find? p = some x) : (l1 ++ l2).find? p = some x := by
  rw [List.find?_append, h]
  rfl

/-- A status-updating map hits exactly the row that `find?` by id finds. -/
theorem find?_map_setStatus {l : List TxnRow} {tid : Nat} {orig : TxnRow} (s : String)
    (h : l.find? (fun r => r.id == tid) = some orig) :
    (l.map (fun r => if r.id == tid then { r with status := s } else r)).find?
      (fun r => r.id == tid) = some { orig with status := s } := by
  induction l with
  | nil => simp at h
  | cons a l ih =>
    by_cases ha : (a.id == tid) = true
    · rw [List.find?_cons_of_pos (p := fun r : TxnRow => r.id == tid) l ha] at h
      cases h
      simp only [List.map_cons, if_pos ha]
      exact List.find?_cons_of_pos (p := fun r : TxnRow => r.id == tid) _ ha
    · rw [List.find?_cons_of_neg (p := fun r : TxnRow => r.id == tid) l ha] at h
      simp only [List.map_cons, if_neg ha]
      rw [List.find?_cons_of_neg (p := fun r : TxnRow => r.id == tid) _ ha]
      exact ih h

/-- A status-updating map for an id that occurs nowhere is the identity. -/
theorem map_setStatus_of_not_mem {l : List TxnRow} {tid : Nat} (s : String)
    (h : ∀ r ∈ l, r.id ≠ tid) :
    l.map (fun r => if r.id == tid then { r with status := s } else r) = l := by
  induction l with
  | nil => rfl
  | cons a l ih =>
    have ha : ¬(a.id == tid) = true := by
      simpa using h a (List.mem_cons_self a l)
    simp only [List.map_cons, if_neg ha]
    rw [ih (fun r hr => h r (List.mem_cons_of_mem a hr))]

/-- Computation lemma: `processTransaction` under an already bound key
returns the DUPLICATE outcome with the bound transaction lookup and
leaves the store untouched. -/
theorem processTransaction_bound_eq (db : DB) (now : Nat) (t : TxnPayload)
    (key : String) (kr : KeyRow) (hk : findKey db key = some kr) :
    processTransaction db now t key =
      .ok (.DUPLICATE (findTxn db kr.transaction_id), db) := by
  unfold processTransaction processTransactionAux
  rw [hk]

/-- Computation lemma: `processTransaction` on a fresh key with a payload
accepted by `validateTransaction` commits the transaction row (completed
in the store, returned as the PENDING row), the key binding, and the
DEBIT/CREDIT pair. -/
theorem processTransaction_fresh_eq (db : DB) (now : Nat) (t : TxnPayload)
    (key : String) (hfresh : findKey db key = none)
    (hval : validateTransaction t = .ok ()) :
    processTransaction db now t key =
      .ok (.SUCCESS db.nextId
        ⟨db.nextId, t.source_account_id, t.destination_account_id, t.amount,
         "PENDING", none, none, none, now⟩,
        { transactions := (db.transactions ++
            [(⟨db.nextId, t.source_account_id, t.destination_account_id, t.amount,
              "PENDING", none, none, none, now⟩ : TxnRow)]).map
            (fun r => if r.id == db.nextId then { r with status := "COMPLETED" } else r),
          ledger_entries := db.ledger_entries ++
            [⟨db.nextId, t.source_account_id, -t.amount, .DEBIT, .SOURCE, now⟩,
             ⟨db.nextId, t.destination_account_id, t.amount, .CREDIT, .DESTINATION, now⟩],
          idempotency_keys := db.idempotency_keys ++ [⟨key, db.nextId, now⟩],
          reports := db.reports,
          nextId := db.nextId + 1 }) := by
  have hkey2 : findKey
      { db with
        transactions := db.transactions ++
          [(⟨db.nextId, t.source_account_id, t.destination_account_id, t.amount,
            "PENDING", none, none, none, now⟩ : TxnRow)],
        nextId := db.nextId + 1 } key = none := hfresh
  unfold processTransaction processTransactionAux
  rw [hfresh, hval]
  simp only [insertIdempotencyKey, hkey2]
  rfl

/-- Computation lemma: once the key is bound, every further sequential
submission is a read-only DUPLICATE, any number of times, leaving the
store untouched. -/
theorem submitN_bound_eq (db : DB) (now : Nat) (t : TxnPayload) (key : String)
    (kr : KeyRow) (n : Nat) (d : Option TxnRow)
    (hk : findKey db key = some kr) (hd : findTxn db kr.transaction_id = d) :
    submitN db now t key n = (List.replicate n (.ok (.DUPLICATE d)), db) := by
  induction n with
  | zero => rfl
  | succ n ih =>
    have hstep := processTransaction_bound_eq db now t key kr hk
    rw [hd] at hstep
    simp only [submitN, hstep, ih, List.replicate_succ]

/-! ### C1 -/

/-- C1: for every valid transaction (nonempty and distinct source and
destination accounts, positive amount) submitted under a fresh
idempotency key, `processTransaction` creates exactly two ledger
entries: a DEBIT against the source account holding minus the amount,
and a CREDIT against the destination account holding plus the amount,
whose signed amounts sum to zero. -/
theorem processTransaction_fresh_valid_posts_balanced_pair
    (db : DB) (now : Nat) (t : TxnPayload) (key : String)
    (hfresh : findKey db key = none)
    (hsrc : t.source_account_id ≠ "") (hdst : t.destination_account_id ≠ "")
    (hne : t.source_account_id ≠ t.destination_account_id)
    (hpos : 0 < t.amount) :
    ∃ db1 : DB,
      processTransaction db now t key =
        .ok (.SUCCESS db.nextId
          ⟨db.nextId, t.source_account_id, t.destination_account_id, t.amount,
           "PENDING", none, none, none, now⟩, db1) ∧
      db1.ledger_entries = db.ledger_entries ++
        [⟨db.nextId, t.source_account_id, -t.amount, .DEBIT, .SOURCE, now⟩,
         ⟨db.nextId, t.destination_account_id, t.amount, .CREDIT, .DESTINATION, now⟩] ∧
      sumAmounts
        [⟨db.nextId, t.source_account_id, -t.amount, .DEBIT, .SOURCE, now⟩,
         ⟨db.nextId, t.destination_account_id, t.amount, .CREDIT, .DESTINATION, now⟩] = 0 := by
  have hval : validateTransaction t = .ok () := by
    unfold validateTransaction
    rw [if_neg (not_or.mpr ⟨hsrc, hdst⟩), if_neg hne, if_neg (not_le.mpr hpos)]
  refine ⟨_, processTransaction_fresh_eq db now t key hfresh hval, rfl, ?_⟩
  simp [sumAmounts]

/-- Witness for C1: the valid payload `payAB` under fresh key k1 on the
empty store. -/
theorem processTransaction_fresh_valid_posts_balanced_pair_witness :
    ∃ db1 : DB,
      processTransaction DB.empty 5 payAB "k1" =
        .ok (.SUCCESS DB.empty.nextId
          ⟨DB.empty.nextId, payAB.source_account_id, payAB.destination_account_id,
           payAB.amount, "PENDING", none, none, none, 5⟩, db1) ∧
      db1.ledger_entries = DB.empty.ledger_entries ++
        [⟨DB.empty.nextId, payAB.source_account_id, -payAB.amount, .DEBIT, .SOURCE, 5⟩,
         ⟨DB.empty.nextId, payAB.destination_account_id, payAB.amount, .CREDIT,
          .DESTINATION, 5⟩] ∧
      sumAmounts
        [⟨DB.empty.nextId, payAB.source_account_id, -payAB.amount, .DEBIT, .SOURCE, 5⟩,
         ⟨DB.empty.nextId, payAB.destination_account_id, payAB.amount, .CREDIT,
          .DESTINATION, 5⟩] = 0 :=
  processTransaction_fresh_valid_posts_balanced_pair DB.empty 5 payAB "k1"
    rfl (by decide) (by decide) (by decide) (by decide)

/-! ### C10 -/

/-- C10: under an already bound idempotency key, `processTransaction`
returns the DUPLICATE outcome with the bound transaction and leaves the
store untouched, for every payload — valid or not — because the
duplicate-key lookup precedes the `validateTransaction` call. -/
theorem processTransaction_bound_key_skips_validation
    (db : DB) (now : Nat) (t : TxnPayload) (key : String) (kr : KeyRow)
    (hk : findKey db key = some kr) :
    processTransaction db now t key =
      .ok (.DUPLICATE (findTxn db kr.transaction_id), db) :=
  processTransaction_bound_eq db now t key kr hk

/-- Witness for C10: replaying bound key k1 with an invalid payload
(identical accounts, negative amount) still succeeds as DUPLICATE of
transaction 0. -/
theorem processTransaction_bound_key_skips_validation_witness :
    (⟨"A", "A", -5⟩ : TxnPayload).amount ≤ 0 ∧
    (⟨"A", "A", -5⟩ : TxnPayload).source_account_id =
      (⟨"A", "A", -5⟩ : TxnPayload).destination_account_id ∧
    processTransaction exDB1 9 ⟨"A", "A", -5⟩ "k1" =
      .ok (.DUPLICATE (findTxn exDB1 0), exDB1) :=
  ⟨by decide, rfl,
   processTransaction_bound_key_skips_validation exDB1 9 ⟨"A", "A", -5⟩ "k1"
     ⟨"k1", 0, 5⟩ rfl⟩

/-! ### C2 -/

/-- Counterexample to C2 as stated (which quantifies over every
transaction payload): submitting an invalid payload (negative amount)
twice under the same key creates zero transaction rows — not exactly
one — and the second call fails with the validation error instead of
returning DUPLICATE. -/
theorem submitTwice_invalid_payload_creates_no_transaction :
    submitN DB.empty 5 ⟨"A", "B", -1⟩ "k9" 2 =
      ([.error ⟨none, "Invalid amount"⟩, .error ⟨none, "Invalid amount"⟩], DB.empty) ∧
    (submitN DB.empty 5 ⟨"A", "B", -1⟩ "k9" 2).2.transactions.length = 0 := by
  exact ⟨rfl, rfl⟩

/-- Computation lemma: a run of n + 2 sequential submissions where the
first call succeeds and leaves the key bound to the new transaction. -/
theorem submitN_after_first (db db1 : DB) (now : Nat) (t : TxnPayload) (key : String)
    (n : Nat) (txnP txnC : TxnRow)
    (h1 : processTransaction db now t key = .ok (.SUCCESS db.nextId txnP, db1))
    (hk1 : findKey db1 key = some ⟨key, db.nextId, now⟩)
    (ht1 : findTxn db1 db.nextId = some txnC) :
    submitN db now t key (n + 2) =
      (.ok (.SUCCESS db.nextId txnP) ::
        List.replicate (n + 1) (.ok (.DUPLICATE (some txnC))), db1) := by
  have h0 := processTransaction_bound_eq db1 now t key ⟨key, db.nextId, now⟩ hk1
  rw [show findTxn db1 (KeyRow.transaction_id ⟨key, db.nextId, now⟩) = some txnC
    from ht1] at h0
  have hrest := submitN_bound_eq db1 now t key ⟨key, db.nextId, now⟩ n
    (some txnC) hk1 ht1
  show submitN db now t key (n + 1 + 1) = _
  simp only [submitN, h1, h0, hrest, List.replicate_succ]

/-- C2 (amended): for a payload accepted by `validateTransaction` and an
idempotency key unbound in a store with fresh-consistent ids, submitting
the same pair n + 2 ≥ 2 times in sequence creates exactly one
transaction row, and every call after the first returns DUPLICATE with
that same (now COMPLETED) transaction, leaving the store untouched. -/
theorem submitN_valid_fresh_idempotent (db : DB) (now : Nat) (t : TxnPayload)
    (key : String) (n : Nat)
    (hfresh : findKey db key = none) (hval : validateTransaction t = .ok ())
    (hWf : ∀ r ∈ db.transactions, r.id ≠ db.nextId) :
    (submitN db now t key (n + 2)).1 =
      .ok (.SUCCESS db.nextId
        ⟨db.nextId, t.source_account_id, t.destination_account_id, t.amount,
         "PENDING", none, none, none, now⟩) ::
      List.replicate (n + 1)
        (.ok (.DUPLICATE (some
          ⟨db.nextId, t.source_account_id, t.destination_account_id, t.amount,
           "COMPLETED", none, none, none, now⟩))) ∧
    (submitN db now t key (n + 2)).2.transactions = db.transactions ++
      [⟨db.nextId, t.source_account_id, t.destination_account_id, t.amount,
        "COMPLETED", none, none, none, now⟩] := by
  have h1 := processTransaction_fresh_eq db now t key hfresh hval
  have hfind : List.find? (fun r => r.id == db.nextId) db.transactions = none := by
    rw [List.find?_eq_none]
    intro r hr
    simpa using hWf r hr
  have hp : (db.transactions ++ [(⟨db.nextId, t.source_account_id,
      t.destination_account_id, t.amount, "PENDING", none, none, none,
      now⟩ : TxnRow)]).find? (fun r => r.id == db.nextId) =
      some ⟨db.nextId, t.source_account_id, t.destination_account_id, t.amount,
        "PENDING", none, none, none, now⟩ := by
    rw [find?_append_of_none _ hfind]
    simp
  have hmain := submitN_after_first db _ now t key n _
    (⟨db.nextId, t.source_account_id, t.destination_account_id, t.amount,
      "COMPLETED", none, none, none, now⟩ : TxnRow) h1
    (by
      show (db.idempotency_keys ++ [(⟨key, db.nextId, now⟩ : KeyRow)]).find?
        (fun r => r.idempotency_key == key) = some ⟨key, db.nextId, now⟩
      rw [find?_append_of_none _ hfresh]
      simp)
    (by
      show ((db.transactions ++ [(⟨db.nextId, t.source_account_id,
          t.destination_account_id, t.amount, "PENDING", none, none, none,
          now⟩ : TxnRow)]).map
          (fun r => if r.id == db.nextId then { r with status := "COMPLETED" } else r)).find?
          (fun r => r.id == db.nextId) =
        some ⟨db.nextId, t.source_account_id, t.destination_account_id, t.amount,
          "COMPLETED", none, none, none, now⟩
      simpa using find?_map_setStatus ("COMPLETED") hp)
  rw [hmain]
  refine ⟨rfl, ?_⟩
  show (db.transactions ++ [(⟨db.nextId, t.source_account_id,
      t.destination_account_id, t.amount, "PENDING", none, none, none,
      now⟩ : TxnRow)]).map
      (fun r => if r.id == db.nextId then { r with status := "COMPLETED" } else r) = _
  rw [List.map_append, map_setStatus_of_not_mem _ hWf]
  simp

/-- Witness for C2's amended theorem: `payAB` under fresh key k1 on the
empty store, submitted twice. -/
theorem submitN_valid_fresh_idempotent_witness :
    (submitN DB.empty 5 payAB "k1" 2).1 =
      .ok (.SUCCESS DB.empty.nextId
        ⟨DB.empty.nextId, payAB.source_account_id, payAB.destination_account_id,
         payAB.amount, "PENDING", none, none, none, 5⟩) ::
      List.replicate 1
        (.ok (.DUPLICATE (some
          ⟨DB.empty.nextId, payAB.source_account_id, payAB.destination_account_id,
           payAB.amount, "COMPLETED", none, none, none, 5⟩))) ∧
    (submitN DB.empty 5 payAB "k1" 2).2.transactions = DB.empty.transactions ++
      [⟨DB.empty.nextId, payAB.source_account_id, payAB.destination_account_id,
        payAB.amount, "COMPLETED", none, none, none, 5⟩] :=
  submitN_valid_fresh_idempotent DB.empty 5 payAB "k1" 0 rfl rfl
    (by simp [DB.empty])


/-! ### C3, C4, C5 (reconciliation code bugs, settled at concrete stores) -/

/-- C3 (code bug): at the reachable store `exDB1` (one correctly posted
in-window transaction of 100 into account B), the spec-side expected
ending balance (baseline plus signed transaction sum) equals the ledger
ending balance, so the claim requires `balanced = true`; the code reports
`balanced = false` because it compares the pre-window baseline (its
`expected_balance`, here 0) against the ending ledger balance (100) and
never incorporates the transaction sum. -/
theorem reconcileAccount_ignores_transaction_sum_at_exDB1 :
    processTransaction DB.empty 5 payAB "k1" = .ok (.SUCCESS 0 exTxnPending, exDB1) ∧
    specExpectedEndingBalance exDB1 "B" 0 10 =
      (reconcileAccount exDB1 9 "B" 0 10).1.actual_balance ∧
    (reconcileAccount exDB1 9 "B" 0 10).1.balanced = false ∧
    (reconcileAccount exDB1 9 "B" 0 10).1.expected_balance = 0 ∧
    (reconcileAccount exDB1 9 "B" 0 10).1.actual_balance = 100 :=
  ⟨rfl, by with_unfolding_all rfl, by with_unfolding_all rfl,
   by with_unfolding_all rfl, by with_unfolding_all rfl⟩

/-- C4 (code bug): at `exDB2` — `exDB1` with transaction 0's ledger
entries deleted out-of-band — the window [0, 10] contains that
transaction (it touches account B), yet the code reports zero
discrepancies (its transaction query on the never-populated
`transactions.account_id` selects nothing, so the MISSING_LEDGER_ENTRY
branch is unreachable) and `balanced = true` (baseline 0 equals ending
ledger balance 0 once the entries are gone), where the claim requires
exactly one MISSING_LEDGER_ENTRY discrepancy and `balanced = false`. -/
theorem reconcileAccount_missing_entries_undetected_at_exDB2 :
    (exDB2.transactions.filter (fun t =>
      (t.source_account_id == "B" || t.destination_account_id == "B") &&
      decide (0 ≤ t.created_at) && decide (t.created_at ≤ 10))).length = 1 ∧
    txnEntries exDB2 0 = [] ∧
    (reconcileAccount exDB2 9 "B" 0 10).1.discrepancies = [] ∧
    (reconcileAccount exDB2 9 "B" 0 10).1.discrepancy_count = 0 ∧
    (reconcileAccount exDB2 9 "B" 0 10).1.balanced = true :=
  ⟨by decide, rfl, by with_unfolding_all rfl, by with_unfolding_all rfl,
   by with_unfolding_all rfl⟩

/-- C5 (code bug): at `exDB3` — `exDB1` with the source-side DEBIT
corrupted out-of-band from -100 to -50 — account A's entry amount
differs from the expected signed amount (-100), so the claim requires
exactly one AMOUNT_MISMATCH/CRITICAL discrepancy, but the code reports
none: its transaction query (on the never-populated
`transactions.account_id`) selects nothing, and even its comparison
checks only the first fetched entry against the transaction's positive
amount, never the side-signed amount. -/
theorem reconcileAccount_amount_mismatch_undetected_at_exDB3 :
    ((txnEntries exDB3 0).filter (fun e => e.account_id == "A")).map
      (fun e => e.amount) = [-50] ∧
    (-50 : Rat) ≠ -exTxnCompleted.amount ∧
    (reconcileAccount exDB3 9 "A" 0 10).1.discrepancies = [] ∧
    (reconcileAccount exDB3 9 "A" 0 10).1.discrepancy_count = 0 :=
  ⟨by with_unfolding_all rfl, by with_unfolding_all decide,
   by with_unfolding_all rfl, by with_unfolding_all rfl⟩

/-! ### C6 -/

/-- Counterexample to C6 as stated: a transaction with two DEBIT entries
and one CREDIT entry — not exactly one of each kind — is still reported
balanced, because `verifyDoubleEntry` counts distinct entry types, not
entries. -/
theorem verifyDoubleEntry_balanced_with_two_debits :
    (verifyDoubleEntry exDB6 0).balanced = some true ∧
    (txnDebitRows exDB6 0).length = 2 ∧
    (txnCreditRows exDB6 0).length = 1 :=
  ⟨by with_unfolding_all rfl, rfl, rfl⟩

/-- C6 (amended): `verifyDoubleEntry` reports `balanced = true` iff the
transaction has at least one DEBIT entry and at least one CREDIT entry
(exactly two distinct entry types present) and the absolute value of
the DEBIT total plus the CREDIT total is below the fixed epsilon 0.01;
several entries of one kind with one of the other can still be reported
balanced. -/
theorem verifyDoubleEntry_balanced_iff (db : DB) (tid : Nat) :
    (verifyDoubleEntry db tid).balanced = some true ↔
      (txnDebitRows db tid ≠ [] ∧ txnCreditRows db tid ≠ [] ∧
       ratAbs (sumAmounts (txnDebitRows db tid) + sumAmounts (txnCreditRows db tid)) <
         (1 : Rat) / 100) := by
  unfold verifyDoubleEntry
  by_cases hD : (txnDebitRows db tid).isEmpty
  · have hDnil : txnDebitRows db tid = [] := List.isEmpty_iff.mp hD
    by_cases hC : (txnCreditRows db tid).isEmpty
    · simp [hD, hC, hDnil]
    · simp [hD, hC, hDnil]
  · have hDne : txnDebitRows db tid ≠ [] := by
      intro hnil
      exact hD (List.isEmpty_iff.mpr hnil)
    by_cases hC : (txnCreditRows db tid).isEmpty
    · have hCnil : txnCreditRows db tid = [] := List.isEmpty_iff.mp hC
      simp [hD, hC, hCnil]
    · have hCne : txnCreditRows db tid ≠ [] := by
        intro hnil
        exact hC (List.isEmpty_iff.mpr hnil)
      simp [hD, hC, hDne, hCne]


/-! ### C7 -/

/-- Counterexample to C7 as stated: the original transaction exists but
is PENDING, not COMPLETED, so the claim requires a NOT_FOUND failure;
`processRefund` nevertheless succeeds, because the code never checks the
original transaction's status. -/
theorem processRefund_pending_succeeds :
    (findTxn exDBPending 0).map (fun r => r.status) = some ("PENDING") ∧
    (processRefund exDBPending 7 0 100 ("requested")).isOk = true :=
  ⟨rfl, rfl⟩

/-- C7 (amended): `processRefund` fails with the 'Transaction not found'
error exactly when the referenced transaction does not exist; whenever it
exists — whatever its status — the refund succeeds: it returns a new
COMPLETED transaction with source and destination swapped, the refund
amount, type REFUND and the original as parent, appends exactly one
balanced DEBIT/CREDIT pair to the ledger, and marks the original
REFUNDED. -/
theorem processRefund_spec (db : DB) (now tid : Nat) (amt : Rat) (reason : String) :
    (findTxn db tid = none →
      processRefund db now tid amt reason = .error ⟨none, "Transaction not found"⟩) ∧
    (∀ orig : TxnRow, findTxn db tid = some orig →
      ∃ db3 : DB,
        processRefund db now tid amt reason = .ok
          (⟨db.nextId, orig.destination_account_id, orig.source_account_id, amt,
            "COMPLETED", some ("REFUND"), some tid, none, now⟩, db3) ∧
        db3.ledger_entries = db.ledger_entries ++
          [⟨db.nextId, orig.destination_account_id, -amt, .DEBIT, .SOURCE, now⟩,
           ⟨db.nextId, orig.source_account_id, amt, .CREDIT, .DESTINATION, now⟩] ∧
        sumAmounts (db3.ledger_entries.drop db.ledger_entries.length) = 0 ∧
        findTxn db3 tid = some { orig with status := "REFUNDED" }) := by
  constructor
  · intro h
    unfold processRefund
    rw [h]
  · intro orig h
    unfold processRefund
    rw [h]
    refine ⟨_, rfl, rfl, ?_, ?_⟩
    · show sumAmounts ((db.ledger_entries ++
        [(⟨db.nextId, orig.destination_account_id, -amt, .DEBIT, .SOURCE,
           now⟩ : LedgerRow),
         (⟨db.nextId, orig.source_account_id, amt, .CREDIT, .DESTINATION,
           now⟩ : LedgerRow)]).drop db.ledger_entries.length) = 0
      rw [List.drop_left]
      simp [sumAmounts]
    · have happ : (db.transactions ++
          [(⟨db.nextId, orig.destination_account_id, orig.source_account_id, amt,
            "COMPLETED", some ("REFUND"), some tid, none, now⟩ : TxnRow)]).find?
          (fun r => r.id == tid) = some orig :=
        find?_append_of_some _ h
      exact find?_map_setStatus ("REFUNDED") happ

/-- Witness for C7's amended theorem: refunding the PENDING transaction
of `exDBPending`. -/
theorem processRefund_spec_witness :
    ∃ db3 : DB,
      processRefund exDBPending 7 0 100 ("requested") =
        .ok (⟨exDBPending.nextId, "B", "A", 100, "COMPLETED", some ("REFUND"),
          some 0, none, 7⟩, db3) ∧
      db3.ledger_entries = exDBPending.ledger_entries ++
        [⟨exDBPending.nextId, "B", -100, .DEBIT, .SOURCE, 7⟩,
         ⟨exDBPending.nextId, "A", 100, .CREDIT, .DESTINATION, 7⟩] ∧
      sumAmounts (db3.ledger_entries.drop exDBPending.ledger_entries.length) = 0 ∧
      findTxn db3 0 = some ⟨0, "A", "B", 100, "REFUNDED", none, none, none, 5⟩ :=
  (processRefund_spec exDBPending 7 0 100 ("requested")).2
    ⟨0, "A", "B", 100, "PENDING", none, none, none, 5⟩ rfl

/-! ### C8 -/

/-- Counterexample to C8 as stated: the race loser (its duplicate check
saw the empty store, the winner committed `exDB1` meanwhile) hits the
unique-constraint violation, which propagates as an error that
`handleErrors` surfaces to the caller as a 409 'Duplicate entry' failure
— it is not resolved by re-reading the bound record into a DUPLICATE
outcome. -/
theorem raceLoser_conflict_surfaced :
    processTransactionAux DB.empty exDB1 6 payAB "k1" =
      .error ⟨some ("23505"), "duplicate key value violates unique constraint"⟩ ∧
    handleErrors ⟨some ("23505"), "duplicate key value violates unique constraint"⟩ =
      ⟨409, "Duplicate entry"⟩ :=
  ⟨rfl, rfl⟩

/-- C8 (amended): whenever the duplicate check ran before the key was
bound but the store holds the binding by the time of the insert (the
race loser), the operation fails with the Postgres 23505
unique-violation error — rolled back and rethrown, never resolved into
a DUPLICATE outcome — and `handleErrors` surfaces it to the caller as an
HTTP 409 'Duplicate entry' failure. -/
theorem uniqueViolation_maps_to_conflict_response (db0 db1 : DB) (now : Nat)
    (t : TxnPayload) (key : String) (kr : KeyRow)
    (h0 : findKey db0 key = none) (hval : validateTransaction t = .ok ())
    (h1 : findKey db1 key = some kr) :
    processTransactionAux db0 db1 now t key =
      .error ⟨some ("23505"), "duplicate key value violates unique constraint"⟩ ∧
    handleErrors ⟨some ("23505"), "duplicate key value violates unique constraint"⟩ =
      ⟨409, "Duplicate entry"⟩ := by
  constructor
  · unfold processTransactionAux
    rw [h0, hval]
    have h1b : findKey
        { db1 with
            transactions := db1.transactions ++
              [(⟨db1.nextId, t.source_account_id, t.destination_account_id,
                 t.amount, "PENDING", none, none, none, now⟩ : TxnRow)],
            nextId := db1.nextId + 1 } key = some kr := h1
    simp only [insertIdempotencyKey, h1b]
  · rfl

/-- Witness for C8's amended theorem: the loser checked against the
empty store while the winner committed `exDB1` binding key k1. -/
theorem uniqueViolation_maps_to_conflict_response_witness :
    processTransactionAux DB.empty exDB1 11 payAB "k1" =
      .error ⟨some ("23505"), "duplicate key value violates unique constraint"⟩ ∧
    handleErrors ⟨some ("23505"), "duplicate key value violates unique constraint"⟩ =
      ⟨409, "Duplicate entry"⟩ :=
  uniqueViolation_maps_to_conflict_response DB.empty exDB1 11 payAB "k1"
    ⟨"k1", 0, 5⟩ rfl rfl rfl


/-! ### C9 -/

/-- Counterexample to C9 as stated: a submission with identical source
and destination accounts under an already bound key succeeds through the
served transactions route with HTTP 200 as a DUPLICATE (the middleware
never compares the two account ids and `processTransaction` skips
validation for bound keys), and a reconcile request with
startDate = 10 ≥ endDate = 3 proceeds through the served reconcile route
to a 201 report instead of failing validation. -/
theorem validation_gaps_counterexample :
    (routePostTransactions exDB1 6 ⟨"A", "A", 5⟩ "k1").1 =
      .ok 200 (.DUPLICATE (some exTxnCompleted)) ∧
    ((routeReconcile DB.empty 7 "X" 10 3).1).status = 201 :=
  ⟨rfl, rfl⟩

/-- C9 (amended): a submission with non-positive amount is rejected with
a 400 validation response by the served route's middleware; a submission
with identical (nonempty) source and destination accounts is rejected —
with the 'Cannot transfer to same account' error — only inside
`processTransaction` and only when the idempotency key is fresh, while
under a bound key it resolves to DUPLICATE without validation; and the
served reconcile route performs no window validation, so
startDate ≥ endDate still proceeds to reconciliation and a 201 report. -/
theorem validation_behavior :
    (∀ (db : DB) (now : Nat) (t : TxnPayload) (key : String), t.amount ≤ 0 →
      ((routePostTransactions db now t key).1).status = 400) ∧
    (∀ (db : DB) (now : Nat) (t : TxnPayload) (key : String),
      findKey db key = none → t.source_account_id ≠ "" →
      t.source_account_id = t.destination_account_id →
      processTransaction db now t key =
        .error ⟨none, "Cannot transfer to same account"⟩) ∧
    (∀ (db : DB) (now : Nat) (t : TxnPayload) (key : String) (kr : KeyRow),
      findKey db key = some kr →
      processTransaction db now t key =
        .ok (.DUPLICATE (findTxn db kr.transaction_id), db)) ∧
    (∀ (db : DB) (now : Nat) (a : String) (s e : Nat), e ≤ s →
      ((routeReconcile db now a s e).1).status = 201) := by
  refine ⟨?_, ?_, ?_, ?_⟩
  · intro db now t key h
    cases hmw : validateTransactionMw t key with
    | nil =>
      exfalso
      unfold validateTransactionMw at hmw
      rw [if_pos h] at hmw
      simp [List.append_eq_nil] at hmw
    | cons a l =>
      simp only [routePostTransactions, hmw]
      rfl
  · intro db now t key hfresh hsrc heq
    have hdst : t.destination_account_id ≠ "" := heq ▸ hsrc
    have hv : validateTransaction t = .error ⟨none, "Cannot transfer to same account"⟩ := by
      unfold validateTransaction
      rw [if_neg (not_or.mpr ⟨hsrc, hdst⟩), if_pos heq]
    unfold processTransaction processTransactionAux
    rw [hfresh, hv]
  · intro db now t key kr hk
    exact processTransaction_bound_eq db now t key kr hk
  · intro db now a s e h
    rfl

/-- Witness for C9's amended theorem: amount 0 rejected 400 by the route;
fresh-key same-account payload rejected by processTransaction; bound-key
same-account payload resolved as DUPLICATE; reconcile with
startDate = 10 ≥ endDate = 3 answered 201. -/
theorem validation_behavior_witness :
    ((routePostTransactions DB.empty 5 ⟨"A", "A", 0⟩ "k").1).status = 400 ∧
    processTransaction DB.empty 5 ⟨"A", "A", 7⟩ "k" =
      .error ⟨none, "Cannot transfer to same account"⟩ ∧
    processTransaction exDB1 6 ⟨"A", "A", 0⟩ "k1" =
      .ok (.DUPLICATE (findTxn exDB1 0), exDB1) ∧
    ((routeReconcile exDB1 7 "B" 10 3).1).status = 201 :=
  ⟨validation_behavior.1 DB.empty 5 ⟨"A", "A", 0⟩ "k" (by decide),
   validation_behavior.2.1 DB.empty 5 ⟨"A", "A", 7⟩ "k" rfl (by decide) rfl,
   validation_behavior.2.2.1 exDB1 6 ⟨"A", "A", 0⟩ "k1" ⟨"k1", 0, 5⟩ rfl,
   validation_behavior.2.2.2 exDB1 7 "B" 10 3 (by decide)⟩

end PayRecon
